import Mathlib

/-!
# Verification of the Cluster Credential Resolution Engine

A shallow embedding, in Lean 4, of the credential-resolution subsystem of
the `porter` repository (file `internal/forms/cluster.go`), together with
theorems settling the specification claims about it.

Modelling conventions:
* Go byte slices are `List Nat`; Go strings are Lean `String`, and the Go
  conversion `[]byte(s)` is modelled as the list of code points of `s`
  (which coincides with UTF-8 on the ASCII data that appears here).
* Go maps of pointers (`map[string]*T`) are association lists; indexing a
  map returns `Option T` (`none` models the `nil` pointer returned for a
  missing key).  Dereferencing a `nil` pointer is a runtime crash, which
  the embedding makes explicit via `GoResult.crash`.
* `gorm`-backed persistence (`repository.Repository`) is external to the
  file under analysis; it is modelled as an in-memory state whose `create`
  operations assign sequential positive identifiers (spec §6: records get
  server-assigned identifiers).
-/

namespace Porter

/-- Go byte slices, modelled as lists of byte values. -/
abbrev Bytes := List Nat

/-- The Go conversion `[]byte(s)` of a string (code points; equals UTF-8
on ASCII input, which is the only input considered here). -/
def strBytes (s : String) : Bytes := s.data.map Char.toNat

/-! ## Base64 (Go `encoding/base64`, `StdEncoding`)

`b64val` is the standard alphabet; `b64decode` models
`base64.StdEncoding.DecodeString` on inputs free of `\r`/`\n`
(Go skips those characters; none of the data considered here contains
them), returning `none` where Go returns a `CorruptInputError`. -/

/-- Value of one character of the standard base64 alphabet. -/
def b64val (c : Char) : Option Nat :=
  if 'A' ≤ c ∧ c ≤ 'Z' then some (c.toNat - 65)
  else if 'a' ≤ c ∧ c ≤ 'z' then some (c.toNat - 71)
  else if '0' ≤ c ∧ c ≤ '9' then some (c.toNat + 4)
  else if c = '+' then some 62
  else if c = '/' then some 63
  else none

/-- Membership in the base64 alphabet (the character class `[A-Za-z0-9+/]`
of the sniffing regex in `ToCluster`). -/
def isB64c (c : Char) : Bool := (b64val c).isSome

/-- The base64 sniffing regex of `ToCluster`
(`^([A-Za-z0-9+/]{4})*([A-Za-z0-9+/]{3}=|[A-Za-z0-9+/]{2}==)?$`),
transcribed structurally: zero or more groups of four alphabet
characters, the final group optionally ending in one or two `=`. -/
def reGroups : List Char → Bool
  | [] => true
  | a :: b :: c :: d :: rest =>
    if rest.isEmpty then
      isB64c a && isB64c b &&
        ((isB64c c && isB64c d) || (isB64c c && d = '=') || (c = '=' && d = '='))
    else
      if isB64c a && isB64c b && isB64c c && isB64c d then reGroups rest
      else false
  | _ => false

/-- `re.MatchString` for the sniffing regex, on a Go string. -/
def matchBase64 (s : String) : Bool := reGroups s.data

/-- Go's (non-strict) `StdEncoding.DecodeString`: quanta of four symbols;
the final quantum may carry one or two padding characters; trailing bits
are discarded without complaint (Go is non-strict).  `none` models a
`CorruptInputError`. -/
def b64decode : List Char → Option Bytes
  | [] => some []
  | a :: b :: c :: d :: rest => do
    let va ← b64val a
    let vb ← b64val b
    if c = '=' then
      if d = '=' ∧ rest = [] then some [va * 4 + vb / 16] else none
    else do
      let vc ← b64val c
      if d = '=' then
        if rest = [] then some [va * 4 + vb / 16, (vb % 16) * 16 + vc / 4] else none
      else do
        let vd ← b64val d
        let tail ← b64decode rest
        some ((va * 4 + vb / 16) :: ((vb % 16) * 16 + vc / 4) :: ((vc % 4) * 64 + vd) :: tail)
  | _ => none

/-! ## Go runtime outcomes

A Go computation in this subsystem can return a value, return an `error`,
or crash with a runtime panic (nil-pointer dereference).  The embedding
separates the three. -/

/-- Outcome of a Go computation: normal value, Go `error`, or runtime
crash (panic), which the Go code under analysis never recovers from. -/
inductive GoResult (α : Type) where
  | crash (msg : String)
  | err (msg : String)
  | ok (v : α)
deriving Repr, DecidableEq

namespace GoResult

/-- Monadic bind: crashes and errors propagate. -/
def bind : GoResult α → (α → GoResult β) → GoResult β
  | .crash m, _ => .crash m
  | .err m, _ => .err m
  | .ok v, f => f v

instance : Monad GoResult where
  pure := .ok
  bind := bind

end GoResult

/-- Dereference of a Go pointer that may be `nil`: reading any field of a
`nil` struct pointer is a runtime crash. -/
def deref (o : Option α) : GoResult α :=
  match o with
  | some a => .ok a
  | none => .crash "invalid memory address or nil pointer dereference"

/-- Go map indexing `m[k]` on a `map[string]*T`: yields the pointer for
`k`, or `nil` (`none`) when the key is absent (or the map itself is nil). -/
def mapGet (m : List (String × α)) (k : String) : Option α :=
  (m.find? (fun p => p.1 = k)).map (fun p => p.2)

/-! ## Data model

Mechanism tags.  In the source, `models.ClusterAuth` is a string-typed
enumeration (package `internal/models`, outside `src/`); only the
distinctness of the seven constants and their use in the dispatch switch
matter, so representative string values are used. -/

/-- `models.ClusterAuth` (string-typed mechanism tag). -/
abbrev ClusterAuth := String

/-- `models.X509` — the Certificate mechanism. -/
def mX509 : ClusterAuth := "x509"

/-- `models.Bearer` — the BearerToken mechanism. -/
def mBearer : ClusterAuth := "bearerToken"

/-- `models.Basic` — the BasicAuth mechanism. -/
def mBasic : ClusterAuth := "basic"

/-- `models.Local` — the PreExistingLocal mechanism. -/
def mLocal : ClusterAuth := "local"

/-- `models.OIDC` — the OIDC mechanism. -/
def mOIDC : ClusterAuth := "oidc"

/-- `models.GCP` — the CloudIAM-A (GCP) mechanism. -/
def mGCP : ClusterAuth := "gcp-sa"

/-- `models.AWS` — the CloudIAM-B (AWS) mechanism. -/
def mAWS : ClusterAuth := "aws-sa"

/-- `ints.KubeX509` etc.: mechanism discriminator on a kube credential
record (string-typed, package `internal/models/integrations`). -/
abbrev KubeMechanism := String

def kubeX509 : KubeMechanism := "x509"
def kubeBearer : KubeMechanism := "bearerToken"
def kubeBasic : KubeMechanism := "basic"
def kubeLocal : KubeMechanism := "local"

/-- `api.AuthProviderConfig` (client-go): the OIDC provider config map
(`Config map[string]string`; a plain value map, not a pointer map). -/
structure AuthProviderConfig where
  config : List (String × String) := []
deriving Repr, DecidableEq

/-- `api.AuthInfo` (client-go): the auth fields of a kubeconfig user.
`authProvider` is a `*AuthProviderConfig`, hence `Option`. -/
structure AuthInfo where
  locationOfOrigin : String := ""
  clientCertificateData : Bytes := []
  clientKeyData : Bytes := []
  token : String := ""
  impersonate : String := ""
  impersonateGroups : List String := []
  username : String := ""
  password : String := ""
  authProvider : Option AuthProviderConfig := none
deriving Repr, DecidableEq

/-- `api.Context` (client-go): a kubeconfig context entry. -/
structure KubeContext where
  locationOfOrigin : String := ""
  cluster : String := ""
  authInfo : String := ""
deriving Repr, DecidableEq

/-- `api.Cluster` (client-go): a kubeconfig cluster entry. -/
structure KubeCluster where
  locationOfOrigin : String := ""
  server : String := ""
  tlsServerName : String := ""
  insecureSkipTLSVerify : Bool := false
  certificateAuthorityData : Bytes := []
deriving Repr, DecidableEq

/-- `api.Config` (client-go): the parsed kubeconfig.  The three sections
are maps from name to *pointer* (`map[string]*Context` and so on), so
lookups yield `Option`; the maps may be empty when the corresponding
kubeconfig section is absent. -/
structure Config where
  currentContext : String := ""
  contexts : List (String × KubeContext) := []
  authInfos : List (String × AuthInfo) := []
  clusters : List (String × KubeCluster) := []
deriving Repr, DecidableEq

/-- `models.ClusterCandidate` (fields read by `internal/forms/cluster.go`):
the immutable candidate snapshot. -/
structure ClusterCandidate where
  authMechanism : ClusterAuth := ""
  projectID : Nat := 0
  name : String := ""
  server : String := ""
  kubeconfig : Bytes := []
deriving Repr, DecidableEq

/-- `models.ClusterResolverAll` (fields read by `internal/forms/cluster.go`):
the operator-supplied override values. -/
structure ClusterResolverAll where
  clusterCAData : String := ""
  clusterHostname : String := ""
  clientCertData : String := ""
  clientKeyData : String := ""
  tokenData : String := ""
  oidcIssuerCAData : String := ""
  gcpKeyData : String := ""
  awsAccessKeyID : String := ""
  awsSecretAccessKey : String := ""
  awsClusterID : String := ""
deriving Repr, DecidableEq

/-- `ints.KubeIntegration`: the kube-family credential record
(Certificate / BearerToken / BasicAuth / PreExistingLocal).  `id` is the
gorm-assigned identifier (`Model.ID`). -/
structure KubeIntegration where
  id : Nat := 0
  mechanism : KubeMechanism := ""
  userID : Nat := 0
  projectID : Nat := 0
  clientCertificateData : Bytes := []
  clientKeyData : Bytes := []
  token : Bytes := []
  username : Bytes := []
  password : Bytes := []
  kubeconfig : Bytes := []
deriving Repr, DecidableEq

/-- `ints.OIDCIntegration`: the OIDC credential record. -/
structure OIDCIntegration where
  id : Nat := 0
  client : String := ""
  userID : Nat := 0
  projectID : Nat := 0
  issuerURL : Bytes := []
  clientID : Bytes := []
  clientSecret : Bytes := []
  certificateAuthorityData : Bytes := []
  idToken : Bytes := []
  refreshToken : Bytes := []
deriving Repr, DecidableEq

/-- `ints.OIDCKube`: the OIDC client discriminator used by `resolveOIDC`. -/
def oidcKube : String := "kube"

/-- `ints.GCPIntegration`: the CloudIAM-A (GCP) credential record. -/
structure GCPIntegration where
  id : Nat := 0
  userID : Nat := 0
  projectID : Nat := 0
  gcpKeyData : Bytes := []
deriving Repr, DecidableEq

/-- `ints.AWSIntegration`: the CloudIAM-B (AWS) credential record. -/
structure AWSIntegration where
  id : Nat := 0
  userID : Nat := 0
  projectID : Nat := 0
  awsClusterID : Bytes := []
  awsAccessKeyID : Bytes := []
  awsSecretAccessKey : Bytes := []
deriving Repr, DecidableEq

/-- `models.Cluster` (fields written by `internal/forms/cluster.go`): the
finalized cluster descriptor.  The four integration-id fields are the
credential-reference slots. -/
structure Cluster where
  authMechanism : ClusterAuth := ""
  projectID : Nat := 0
  name : String := ""
  server : String := ""
  clusterLocationOfOrigin : String := ""
  tlsServerName : String := ""
  insecureSkipTLSVerify : Bool := false
  userLocationOfOrigin : String := ""
  userImpersonate : String := ""
  userImpersonateGroups : String := ""
  kubeIntegrationID : Nat := 0
  oidcIntegrationID : Nat := 0
  gcpIntegrationID : Nat := 0
  awsIntegrationID : Nat := 0
  certificateAuthorityData : Bytes := []
deriving Repr, DecidableEq

/-- Modelled from the spec: the persistence collaborator (§6,
`repository.Repository`; its gorm implementation is not under `src/`).
State is a list per record kind; `canQuery` is the failure switch of the
in-memory test repository (`internal/repository/test`).  `create`
operations assign the next sequential (hence positive) identifier and
append, per §6: `create(record) -> (record-with-id, error)` with
server-assigned identifiers. -/
structure RepoState where
  canQuery : Bool := true
  kubeIntegrations : List KubeIntegration := []
  oidcIntegrations : List OIDCIntegration := []
  gcpIntegrations : List GCPIntegration := []
  awsIntegrations : List AWSIntegration := []
  clusters : List Cluster := []
deriving Repr, DecidableEq

/-- Modelled from the spec: `repo.KubeIntegration.CreateKubeIntegration`. -/
def createKubeIntegration (ki : KubeIntegration) (st : RepoState) :
    GoResult (KubeIntegration × RepoState) :=
  if st.canQuery then
    let ki := { ki with id := st.kubeIntegrations.length + 1 }
    .ok (ki, { st with kubeIntegrations := st.kubeIntegrations ++ [ki] })
  else .err "cannot write kube integration"

/-- Modelled from the spec: `repo.OIDCIntegration.CreateOIDCIntegration`. -/
def createOIDCIntegration (oidc : OIDCIntegration) (st : RepoState) :
    GoResult (OIDCIntegration × RepoState) :=
  if st.canQuery then
    let oidc := { oidc with id := st.oidcIntegrations.length + 1 }
    .ok (oidc, { st with oidcIntegrations := st.oidcIntegrations ++ [oidc] })
  else .err "cannot write oidc integration"

/-- Modelled from the spec: `repo.GCPIntegration.CreateGCPIntegration`. -/
def createGCPIntegration (gcp : GCPIntegration) (st : RepoState) :
    GoResult (GCPIntegration × RepoState) :=
  if st.canQuery then
    let gcp := { gcp with id := st.gcpIntegrations.length + 1 }
    .ok (gcp, { st with gcpIntegrations := st.gcpIntegrations ++ [gcp] })
  else .err "cannot write gcp integration"

/-- Modelled from the spec: `repo.AWSIntegration.CreateAWSIntegration`. -/
def createAWSIntegration (aws : AWSIntegration) (st : RepoState) :
    GoResult (AWSIntegration × RepoState) :=
  if st.canQuery then
    let aws := { aws with id := st.awsIntegrations.length + 1 }
    .ok (aws, { st with awsIntegrations := st.awsIntegrations ++ [aws] })
  else .err "cannot write aws integration"

/-! ## `CreateClusterForm.ToCluster` (`cluster.go` lines 33–70)

The encoding sniffer of the spec (§4.1) is the inline regex-and-decode
logic of this function. -/

/-- `forms.CreateClusterForm`. -/
structure CreateClusterForm where
  name : String := ""
  projectID : Nat := 0
  server : String := ""
  gcpIntegrationID : Nat := 0
  awsIntegrationID : Nat := 0
  certificateAuthorityData : String := ""
deriving Repr, DecidableEq

/-- `CreateClusterForm.ToCluster` (`cluster.go` 33–70): picks the auth
mechanism from whichever cloud integration id is set, then sniffs the CA
data — when the string is non-empty and matches the base64 regex it is
decoded (decode failure is returned as the error); otherwise `cert`
keeps its initial empty value. -/
def ToCluster (ccf : CreateClusterForm) : GoResult Cluster := do
  let authMechanism ←
    if ccf.gcpIntegrationID ≠ 0 then GoResult.ok mGCP
    else if ccf.awsIntegrationID ≠ 0 then GoResult.ok mAWS
    else GoResult.err "must include aws or gcp integration id"
  let cert : Bytes := []
  let cert ←
    if ccf.certificateAuthorityData ≠ "" then
      if matchBase64 ccf.certificateAuthorityData then
        match b64decode ccf.certificateAuthorityData.data with
        | none => GoResult.err "illegal base64 data"
        | some decoded => GoResult.ok decoded
      else GoResult.ok cert
    else GoResult.ok cert
  GoResult.ok
    { authMechanism := authMechanism
      name := ccf.name
      server := ccf.server
      gcpIntegrationID := ccf.gcpIntegrationID
      awsIntegrationID := ccf.awsIntegrationID
      certificateAuthorityData := cert }

/-! ## `ResolveClusterForm` and the seven mechanism resolvers
(`cluster.go` lines 94–427)

Each resolver is a method on the form; in Go the `authInfo` argument is a
possibly-nil `*api.AuthInfo`, so here it is `Option AuthInfo` and the
first field read dereferences it. -/

/-- `forms.ResolveClusterForm`.  `clusterCandidate` and `rawConf` are
populated during `ResolveIntegration`; `integrationID` afterwards. -/
structure ResolveClusterForm where
  resolver : ClusterResolverAll := {}
  clusterCandidateID : Nat := 0
  projectID : Nat := 0
  userID : Nat := 0
  integrationID : Nat := 0
  clusterCandidate : ClusterCandidate := {}
  rawConf : Config := {}
deriving Repr, DecidableEq

/-- `resolveX509` (`cluster.go` 162–215): raw cert/key from the auth
info where non-empty; non-empty overrides are unconditionally
base64-decoded (decode failure is returned); fails unless both fields
end non-empty; persists a `KubeX509` record. -/
def resolveX509 (rcf : ResolveClusterForm) (authInfo : Option AuthInfo)
    (st : RepoState) : GoResult (Nat × RepoState) := do
  let ai ← deref authInfo
  let ki : KubeIntegration :=
    { mechanism := kubeX509, userID := rcf.userID, projectID := rcf.projectID }
  let ki := if ai.clientCertificateData.length > 0 then
      { ki with clientCertificateData := ai.clientCertificateData } else ki
  let ki := if ai.clientKeyData.length > 0 then
      { ki with clientKeyData := ai.clientKeyData } else ki
  let ki ←
    if rcf.resolver.clientCertData ≠ "" then
      match b64decode rcf.resolver.clientCertData.data with
      | none => GoResult.err "illegal base64 data"
      | some decoded => GoResult.ok { ki with clientCertificateData := decoded }
    else GoResult.ok ki
  let ki ←
    if rcf.resolver.clientKeyData ≠ "" then
      match b64decode rcf.resolver.clientKeyData.data with
      | none => GoResult.err "illegal base64 data"
      | some decoded => GoResult.ok { ki with clientKeyData := decoded }
    else GoResult.ok ki
  if ki.clientCertificateData.length = 0 ∨ ki.clientKeyData.length = 0 then
    GoResult.err "could not resolve kube integration (x509)"
  else do
    let (ki, st) ← createKubeIntegration ki st
    GoResult.ok (ki.id, st)

/-- `resolveToken` (`cluster.go` 217–250): raw token where non-empty, a
non-empty override replaces it (no decoding); fails when the merged
token is empty; persists a `KubeBearer` record. -/
def resolveToken (rcf : ResolveClusterForm) (authInfo : Option AuthInfo)
    (st : RepoState) : GoResult (Nat × RepoState) := do
  let ai ← deref authInfo
  let ki : KubeIntegration :=
    { mechanism := kubeBearer, userID := rcf.userID, projectID := rcf.projectID }
  let ki := if ai.token.length > 0 then { ki with token := strBytes ai.token } else ki
  let ki := if rcf.resolver.tokenData ≠ "" then
      { ki with token := strBytes rcf.resolver.tokenData } else ki
  if ki.token.length = 0 then
    GoResult.err "could not resolve kube integration (token)"
  else do
    let (ki, st) ← createKubeIntegration ki st
    GoResult.ok (ki.id, st)

/-- `resolveBasic` (`cluster.go` 252–282): username/password come only
from the raw auth info — the resolver overrides are never consulted;
fails unless both are non-empty; persists a `KubeBasic` record. -/
def resolveBasic (rcf : ResolveClusterForm) (authInfo : Option AuthInfo)
    (st : RepoState) : GoResult (Nat × RepoState) := do
  let ai ← deref authInfo
  let ki : KubeIntegration :=
    { mechanism := kubeBasic, userID := rcf.userID, projectID := rcf.projectID }
  let ki := if ai.username.length > 0 then
      { ki with username := strBytes ai.username } else ki
  let ki := if ai.password.length > 0 then
      { ki with password := strBytes ai.password } else ki
  if ki.username.length = 0 ∨ ki.password.length = 0 then
    GoResult.err "could not resolve kube integration (basic)"
  else do
    let (ki, st) ← createKubeIntegration ki st
    GoResult.ok (ki.id, st)

/-- `resolveLocal` (`cluster.go` 284–303): copies the candidate's
kubeconfig blob verbatim and persists unconditionally — there is no
emptiness check and the auth info is never read. -/
def resolveLocal (rcf : ResolveClusterForm) (_authInfo : Option AuthInfo)
    (st : RepoState) : GoResult (Nat × RepoState) := do
  let ki : KubeIntegration :=
    { mechanism := kubeLocal, userID := rcf.userID, projectID := rcf.projectID
      kubeconfig := rcf.clusterCandidate.kubeconfig }
  let (ki, st) ← createKubeIntegration ki st
  GoResult.ok (ki.id, st)

/-- `resolveOIDC` (`cluster.go` 305–358): reads
`authInfo.AuthProvider.Config` (two pointer dereferences — both the auth
info and its auth provider may be nil), opportunistically pulls six keys,
and passes a non-empty issuer-CA override through verbatim (no base64
decoding); persists unconditionally. -/
def resolveOIDC (rcf : ResolveClusterForm) (authInfo : Option AuthInfo)
    (st : RepoState) : GoResult (Nat × RepoState) := do
  let ai ← deref authInfo
  let ap ← deref ai.authProvider
  let oidc : OIDCIntegration :=
    { client := oidcKube, userID := rcf.userID, projectID := rcf.projectID }
  let oidc := match mapGet ap.config "idp-issuer-url" with
    | some url => { oidc with issuerURL := strBytes url }
    | none => oidc
  let oidc := match mapGet ap.config "client-id" with
    | some clientID => { oidc with clientID := strBytes clientID }
    | none => oidc
  let oidc := match mapGet ap.config "client-secret" with
    | some clientSecret => { oidc with clientSecret := strBytes clientSecret }
    | none => oidc
  let oidc := match mapGet ap.config "idp-certificate-authority-data" with
    | some caData => { oidc with certificateAuthorityData := strBytes caData }
    | none => oidc
  let oidc := match mapGet ap.config "id-token" with
    | some idToken => { oidc with idToken := strBytes idToken }
    | none => oidc
  let oidc := match mapGet ap.config "refresh-token" with
    | some refreshToken => { oidc with refreshToken := strBytes refreshToken }
    | none => oidc
  let oidc := if rcf.resolver.oidcIssuerCAData ≠ "" then
      { oidc with certificateAuthorityData := strBytes rcf.resolver.oidcIssuerCAData }
    else oidc
  let (oidc, st) ← createOIDCIntegration oidc st
  GoResult.ok (oidc.id, st)

/-- `resolveGCP` (`cluster.go` 360–388): key material comes only from
the override; fails when empty. -/
def resolveGCP (rcf : ResolveClusterForm) (_authInfo : Option AuthInfo)
    (st : RepoState) : GoResult (Nat × RepoState) := do
  let gcp : GCPIntegration := { userID := rcf.userID, projectID := rcf.projectID }
  let gcp := if rcf.resolver.gcpKeyData ≠ "" then
      { gcp with gcpKeyData := strBytes rcf.resolver.gcpKeyData } else gcp
  if gcp.gcpKeyData.length = 0 then
    GoResult.err "could not resolve gcp integration"
  else do
    let (gcp, st) ← createGCPIntegration gcp st
    GoResult.ok (gcp.id, st)

/-- `resolveAWS` (`cluster.go` 390–427): cluster id, access key id and
secret access key come only from the overrides; fails when any of the
three is empty. -/
def resolveAWS (rcf : ResolveClusterForm) (_authInfo : Option AuthInfo)
    (st : RepoState) : GoResult (Nat × RepoState) := do
  let aws : AWSIntegration := { userID := rcf.userID, projectID := rcf.projectID }
  let aws := if rcf.resolver.awsClusterID ≠ "" then
      { aws with awsClusterID := strBytes rcf.resolver.awsClusterID } else aws
  let aws := if rcf.resolver.awsAccessKeyID ≠ "" then
      { aws with awsAccessKeyID := strBytes rcf.resolver.awsAccessKeyID } else aws
  let aws := if rcf.resolver.awsSecretAccessKey ≠ "" then
      { aws with awsSecretAccessKey := strBytes rcf.resolver.awsSecretAccessKey } else aws
  if aws.awsClusterID.length = 0 ∨ aws.awsAccessKeyID.length = 0 ∨
      aws.awsSecretAccessKey.length = 0 then
    GoResult.err "could not resolve aws integration"
  else do
    let (aws, st) ← createAWSIntegration aws st
    GoResult.ok (aws.id, st)

/-- `ResolveIntegration` (`cluster.go` 108–160).  The candidate read
(`ReadClusterCandidate`) and the kubeconfig parse
(`kubernetes.GetRawConfigFromBytes`, not under `src/`; per spec §6 it
yields a possibly-empty `Config` without error when sections are absent)
are external inputs, so the already-read candidate and the parsed config
are taken as arguments.  Line 127 indexes the contexts map and line 129
reads `context.AuthInfo`, a crash when the current context is missing;
the switch over the mechanism tag has *no default case*, so an
unrecognized tag leaves `id = 0` and `err = nil` and the function
returns success. -/
def ResolveIntegration (rcf : ResolveClusterForm) (cc : ClusterCandidate)
    (rawConf : Config) (st : RepoState) :
    GoResult (ResolveClusterForm × RepoState) := do
  let rcf := { rcf with clusterCandidate := cc, rawConf := rawConf }
  let context ← deref (mapGet rawConf.contexts rawConf.currentContext)
  let authInfoName := context.authInfo
  let authInfo := mapGet rawConf.authInfos authInfoName
  let (id, st) ←
    if cc.authMechanism = mX509 then resolveX509 rcf authInfo st
    else if cc.authMechanism = mBearer then resolveToken rcf authInfo st
    else if cc.authMechanism = mBasic then resolveBasic rcf authInfo st
    else if cc.authMechanism = mLocal then resolveLocal rcf authInfo st
    else if cc.authMechanism = mOIDC then resolveOIDC rcf authInfo st
    else if cc.authMechanism = mGCP then resolveGCP rcf authInfo st
    else if cc.authMechanism = mAWS then resolveAWS rcf authInfo st
    else GoResult.ok (0, st)
  GoResult.ok ({ rcf with integrationID := id }, st)

/-! ## URL model (`net/url` as used by `buildCluster`)

`buildCluster` calls `url.Parse`, `URL.Port()`, sets `URL.Host` and calls
`URL.String()`.  The model covers authority-form URLs
(`scheme://host[path]`) without user-info, query, fragment or bracketed
IPv6 hosts — the shape of every cluster server URL considered here. -/

/-- The parts of a `net/url.URL` used by `buildCluster`: `host` includes
the port when present, as in Go. -/
structure GoURL where
  scheme : String := ""
  host : String := ""
  path : String := ""
deriving Repr, DecidableEq

/-- Split `scheme://rest` at the first `:` (which must be followed by
`//`); scheme characters may not be `:` or `/`. -/
def parseScheme : List Char → Option (List Char × List Char)
  | [] => none
  | c :: rest =>
    if c = ':' then
      if rest.take 2 = ['/', '/'] then some ([], rest.drop 2) else none
    else if c = '/' then none
    else (parseScheme rest).map (fun p => (c :: p.1, p.2))

/-- `url.Parse` on an authority-form URL: scheme before `://`, host up to
the first `/` of the remainder, path from there on. -/
def urlParse (s : String) : Option GoURL :=
  match parseScheme s.data with
  | none => none
  | some (sch, rest) =>
    if sch = [] then none
    else
      some { scheme := String.mk sch
             host := String.mk (rest.takeWhile (fun c => c ≠ '/'))
             path := String.mk (rest.dropWhile (fun c => c ≠ '/')) }

/-- A decimal digit. -/
def isDigitCh (c : Char) : Bool := '0' ≤ c && c ≤ '9'

/-- `URL.Port()` (Go `net/url`): the text after the last `:` of the host
when it consists of digits only; otherwise the empty string. -/
def urlPort (u : GoURL) : String :=
  if u.host.data.contains ':' then
    if ((u.host.data.reverse.takeWhile (fun c => c ≠ ':')).reverse).all isDigitCh then
      String.mk ((u.host.data.reverse.takeWhile (fun c => c ≠ ':')).reverse)
    else ""
  else ""

/-- `URL.Hostname()` (Go `stripPort`): the host up to the last `:` when
one is present, the whole host otherwise. -/
def urlHostname (u : GoURL) : String :=
  if u.host.data.contains ':' then
    String.mk (((u.host.data.reverse.dropWhile (fun c => c ≠ ':')).tail).reverse)
  else u.host

/-- `URL.String()` for an authority-form URL. -/
def urlString (u : GoURL) : String := u.scheme ++ "://" ++ u.host ++ u.path

/-- The hostname-override step of `buildCluster` (`cluster.go`
489–502), applied when the override is non-empty: reparse the server
URL (parse failure is the returned error), then replace the host —
keeping the existing port when `Port()` is non-empty — and render back
to a string. -/
def applyHostnameOverride (hostname : String) (server : String) :
    GoResult String :=
  match urlParse server with
  | none => GoResult.err "could not parse server url"
  | some u =>
    let u :=
      if urlPort u = "" then { u with host := hostname }
      else { u with host := hostname ++ ":" ++ urlPort u }
    GoResult.ok (urlString u)

/-- The credential-slot switch of `buildCluster` (`cluster.go` 504–513):
sets the foreign-key slot selected by the mechanism tag to the resolved
integration id; the switch has no default case, so an unrecognized tag
leaves every slot untouched. -/
def attachIntegrationID (mech : ClusterAuth) (id : Nat) (cluster : Cluster) : Cluster :=
  if mech = mX509 ∨ mech = mBearer ∨ mech = mBasic ∨ mech = mLocal then
    { cluster with kubeIntegrationID := id }
  else if mech = mOIDC then
    { cluster with oidcIntegrationID := id }
  else if mech = mGCP then
    { cluster with gcpIntegrationID := id }
  else if mech = mAWS then
    { cluster with awsIntegrationID := id }
  else cluster

/-- `buildCluster` (`cluster.go` 445–516): indexes the three kubeconfig
maps (each a pointer dereference that crashes when the entry is
missing), copies provenance fields, flattens impersonation groups,
applies the CA-data override (always base64-decoded, failure returned)
and the hostname override, then sets the credential-reference slot
selected by the mechanism switch (again with no default case). -/
def buildCluster (rcf : ResolveClusterForm) : GoResult Cluster := do
  let rawConf := rcf.rawConf
  let kcContext ← deref (mapGet rawConf.contexts rawConf.currentContext)
  let kcAuthInfoName := kcContext.authInfo
  let kcClusterName := kcContext.cluster
  let kcCluster ← deref (mapGet rawConf.clusters kcClusterName)
  let kcAuthInfo ← deref (mapGet rawConf.authInfos kcAuthInfoName)
  let cc := rcf.clusterCandidate
  let cluster : Cluster :=
    { authMechanism := cc.authMechanism
      projectID := cc.projectID
      name := cc.name
      server := cc.server
      clusterLocationOfOrigin := kcCluster.locationOfOrigin
      tlsServerName := kcCluster.tlsServerName
      insecureSkipTLSVerify := kcCluster.insecureSkipTLSVerify
      userLocationOfOrigin := kcAuthInfo.locationOfOrigin
      userImpersonate := kcAuthInfo.impersonate }
  let cluster := if kcAuthInfo.impersonateGroups.length > 0 then
      { cluster with
        userImpersonateGroups := String.intercalate "," kcAuthInfo.impersonateGroups }
    else cluster
  let cluster := if kcCluster.certificateAuthorityData.length > 0 then
      { cluster with certificateAuthorityData := kcCluster.certificateAuthorityData }
    else cluster
  let cluster ←
    if rcf.resolver.clusterCAData ≠ "" then
      match b64decode rcf.resolver.clusterCAData.data with
      | none => GoResult.err "illegal base64 data"
      | some decoded => GoResult.ok { cluster with certificateAuthorityData := decoded }
    else GoResult.ok cluster
  let cluster ←
    if rcf.resolver.clusterHostname ≠ "" then do
      let server ← applyHostnameOverride rcf.resolver.clusterHostname cluster.server
      GoResult.ok { cluster with server := server }
    else GoResult.ok cluster
  GoResult.ok (attachIntegrationID cc.authMechanism rcf.integrationID cluster)

/-- `ResolveCluster` (`cluster.go` 431–443): build, then persist via the
cluster repository (modelled from the spec §6 like the other create
operations). -/
def ResolveCluster (rcf : ResolveClusterForm) (st : RepoState) :
    GoResult (Cluster × RepoState) := do
  let cluster ← buildCluster rcf
  if st.canQuery then
    GoResult.ok (cluster, { st with clusters := st.clusters ++ [cluster] })
  else GoResult.err "cannot write cluster"

/-! ## Helper lemmas -/

/-- Bind on a normal value applies the continuation. -/
@[simp] theorem goResult_ok_bind (v : α) (f : α → GoResult β) :
    GoResult.ok v >>= f = f v := rfl

/-- Bind on a Go error propagates it. -/
@[simp] theorem goResult_err_bind (m : String) (f : α → GoResult β) :
    (GoResult.err m : GoResult α) >>= f = GoResult.err m := rfl

/-- Bind on a crash propagates it. -/
@[simp] theorem goResult_crash_bind (m : String) (f : α → GoResult β) :
    (GoResult.crash m : GoResult α) >>= f = GoResult.crash m := rfl

/-- `pure` on `GoResult` is `ok`. -/
@[simp] theorem goResult_pure (v : α) : (pure v : GoResult α) = GoResult.ok v := rfl

/-- Dereferencing a present pointer yields its value. -/
@[simp] theorem deref_some (a : α) : deref (some a) = GoResult.ok a := rfl

/-- Dereferencing a nil pointer crashes. -/
@[simp] theorem deref_none :
    (deref none : GoResult α) =
      GoResult.crash "invalid memory address or nil pointer dereference" := rfl

/-- A Go string converts to the empty byte slice exactly when it is empty. -/
theorem strBytes_eq_nil_iff (s : String) : strBytes s = [] ↔ s = "" := by
  obtain ⟨l⟩ := s
  simp [strBytes, String.ext_iff]

/-- A Go string has positive length exactly when it is non-empty. -/
theorem string_length_pos_iff (s : String) : 0 < s.length ↔ s ≠ "" := by
  obtain ⟨l⟩ := s
  cases l <;> simp [String.length, String.ext_iff]

/-- A character of the base64 alphabet has a value. -/
theorem exists_b64val {c : Char} (h : isB64c c = true) : ∃ v, b64val c = some v := by
  simpa [isB64c, Option.isSome_iff_exists] using h

/-- A character of the base64 alphabet is not the padding character. -/
theorem b64_ne_pad {c : Char} (h : isB64c c = true) : c ≠ '=' := by
  intro he
  subst he
  exact absurd h (by decide)

/-- Every string matching the sniffing regex decodes successfully: the
regex grammar admits only well-formed base64 quanta, and Go's non-strict
decoder accepts all of them. -/
theorem b64decode_isSome_of_reGroups :
    ∀ l : List Char, reGroups l = true → (b64decode l).isSome
  | [] => by intro h; simp [b64decode]
  | [_] => by intro h; simp [reGroups] at h
  | [_, _] => by intro h; simp [reGroups] at h
  | [_, _, _] => by intro h; simp [reGroups] at h
  | a :: b :: c :: d :: rest => by
    intro h
    by_cases hrest : rest = []
    · subst hrest
      simp only [reGroups, List.isEmpty_nil, if_true, Bool.and_eq_true,
        Bool.or_eq_true, decide_eq_true_eq] at h
      obtain ⟨⟨ha, hb⟩, hcd⟩ := h
      obtain ⟨va, hva⟩ := exists_b64val ha
      obtain ⟨vb, hvb⟩ := exists_b64val hb
      rcases hcd with (⟨hc, hd⟩ | ⟨hc, hd⟩) | ⟨hc, hd⟩
      · obtain ⟨vc, hvc⟩ := exists_b64val hc
        obtain ⟨vd, hvd⟩ := exists_b64val hd
        simp [b64decode, hva, hvb, hvc, hvd, b64_ne_pad hc, b64_ne_pad hd]
      · obtain ⟨vc, hvc⟩ := exists_b64val hc
        simp [b64decode, hva, hvb, hvc, b64_ne_pad hc, hd]
      · simp [b64decode, hva, hvb, hc, hd]
    · have hrest' : rest.isEmpty = false := by
        simp [List.isEmpty_iff, hrest]
      simp only [reGroups, hrest', Bool.false_eq_true, if_false] at h
      split at h
      · rename_i hX
        simp only [Bool.and_eq_true] at hX
        obtain ⟨⟨⟨ha, hb⟩, hc⟩, hd⟩ := hX
        obtain ⟨va, hva⟩ := exists_b64val ha
        obtain ⟨vb, hvb⟩ := exists_b64val hb
        obtain ⟨vc, hvc⟩ := exists_b64val hc
        obtain ⟨vd, hvd⟩ := exists_b64val hd
        obtain ⟨tl, htl⟩ :=
          Option.isSome_iff_exists.mp (b64decode_isSome_of_reGroups rest h)
        simp [b64decode, hva, hvb, hvc, hvd, b64_ne_pad hc, b64_ne_pad hd, htl]
      · simp at h

/-! ## Claims -/

/-- C1: the claim asserts that `ResolveIntegration` fails with
`UnsupportedMechanismError` for a mechanism tag matching none of the
seven known variants.  The dispatch switch (`cluster.go` 136–151) has no
default case, so for the unrecognized tag `"ldap"` the function instead
returns success (`nil` error) having invoked no resolver, with
`IntegrationID = 0`: evaluated here on a candidate whose kubeconfig has
a well-formed current context. -/
theorem c1_unknown_mechanism_dispatch_returns_success :
    ResolveIntegration {} { authMechanism := "ldap" }
        { currentContext := "c"
          contexts := [("c", { cluster := "cl", authInfo := "u" })]
          authInfos := [("u", {})]
          clusters := [("cl", {})] } {} =
      GoResult.ok
        ({ clusterCandidate := { authMechanism := "ldap" }
           rawConf :=
            { currentContext := "c"
              contexts := [("c", { cluster := "cl", authInfo := "u" })]
              authInfos := [("u", {})]
              clusters := [("cl", {})] } }, {}) := by
  decide

/-- C2: the claim asserts that resolution over an absent/partial
kubeconfig terminates with an explicit result or error and never
crashes.  Evaluated on the entirely-empty parsed config (which the
external parser returns without error for an empty kubeconfig, spec §6):
`ResolveIntegration` dereferences the nil `*api.Context` returned by the
contexts-map lookup (`cluster.go` 127–129) and crashes, and
`buildCluster` does the same (`cluster.go` 448–450). -/
theorem c2_empty_config_resolution_crashes :
    ResolveIntegration {} { authMechanism := mX509 } {} {} =
        GoResult.crash "invalid memory address or nil pointer dereference" ∧
      buildCluster {} =
        GoResult.crash "invalid memory address or nil pointer dereference" := by
  constructor <;> decide

/-- C3 counterexample: the claim asserts that when neither source
supplies a required field, resolution fails with an error *naming the
missing field*.  For the Certificate mechanism the error is the constant
string `"could not resolve kube integration (x509)"` — identical whether
the client key, the client certificate, or both are missing, and
containing neither the substring `"key"` nor `"cert"` — so it cannot
name the missing field. -/
theorem c3_error_does_not_name_missing_field :
    resolveX509 {} (some { clientCertificateData := [1, 2, 3] }) {} =
        GoResult.err "could not resolve kube integration (x509)" ∧
      resolveX509 {} (some { clientKeyData := [4, 5, 6] }) {} =
        GoResult.err "could not resolve kube integration (x509)" ∧
      resolveX509 {} (some {}) {} =
        GoResult.err "could not resolve kube integration (x509)" ∧
      ¬ "key".data <:+: "could not resolve kube integration (x509)".data ∧
      ¬ "cert".data <:+: "could not resolve kube integration (x509)".data := by
  refine ⟨by decide, by decide, by decide, by decide, by decide⟩

/-- C4 counterexample: the claim asserts the sniffer is the identity on
non-base64 input.  In `ToCluster` (`cluster.go` 44–60) a non-empty CA
string that does not match the base64 pattern leaves the certificate
bytes *empty* — the input `"!!!"` (which does not match the pattern and
whose byte form is non-empty) is discarded, not passed through. -/
theorem c4_nonmatching_input_discarded_not_identity :
    matchBase64 "!!!" = false ∧
      strBytes "!!!" = [33, 33, 33] ∧
      ToCluster { gcpIntegrationID := 1, certificateAuthorityData := "!!!" } =
        GoResult.ok
          { authMechanism := mGCP, gcpIntegrationID := 1
            certificateAuthorityData := [] } := by
  refine ⟨by decide, by decide, by decide⟩

/-- C5 counterexample: the claim asserts that a Certificate-mechanism
override which does not match the base64 pattern is treated as raw and
passed through rather than causing a decode failure.  `resolveX509`
(`cluster.go` 182–190) decodes the override unconditionally — no
sniffing — so the non-matching override `"!!!"` makes resolution fail
with a decode error even though the raw config supplies both fields. -/
theorem c5_nonmatching_override_is_decode_failure :
    matchBase64 "!!!" = false ∧
      resolveX509 { resolver := { clientCertData := "!!!" } }
          (some { clientCertificateData := [1], clientKeyData := [2] }) {} =
        GoResult.err "illegal base64 data" := by
  refine ⟨by decide, by decide⟩

/-- C6 counterexample: the claim asserts that a credential record is
persisted only when all of the mechanism's required fields are non-empty
(for PreExistingLocal, the full opaque local config blob).
`resolveLocal` (`cluster.go` 284–303) performs no check: for a candidate
with an *empty* kubeconfig blob it still persists a record — whose
required blob field is empty — and returns success. -/
theorem c6_local_persists_empty_blob :
    resolveLocal { clusterCandidate := { kubeconfig := [] } } none {} =
      GoResult.ok
        (1, { kubeIntegrations := [{ id := 1, mechanism := kubeLocal }] }) := by
  decide

/-- C3 (amended): the two-source precedence rule holds for the cited
resolvers — the override wins when non-empty, otherwise the raw value is
used — and when neither source supplies a required field resolution
fails with an error that identifies the *mechanism* (not the individual
missing field; see the counterexample).  For the Certificate mechanism
the override contributes its base64-decoded bytes (the given decodings
are assumed to succeed; failure behaviour is the subject of C5). -/
theorem c3_amended_precedence :
    (∀ (rcf : ResolveClusterForm) (ai : AuthInfo) (st : RepoState),
      st.canQuery = true →
      (rcf.resolver.tokenData ≠ "" →
        ∃ rec st', resolveToken rcf (some ai) st = GoResult.ok (rec.id, st') ∧
          st' = { st with kubeIntegrations := st.kubeIntegrations ++ [rec] } ∧
          rec.token = strBytes rcf.resolver.tokenData) ∧
      (rcf.resolver.tokenData = "" → ai.token ≠ "" →
        ∃ rec st', resolveToken rcf (some ai) st = GoResult.ok (rec.id, st') ∧
          st' = { st with kubeIntegrations := st.kubeIntegrations ++ [rec] } ∧
          rec.token = strBytes ai.token) ∧
      (rcf.resolver.tokenData = "" → ai.token = "" →
        resolveToken rcf (some ai) st =
          GoResult.err "could not resolve kube integration (token)")) ∧
    (∀ (rcf : ResolveClusterForm) (ai : AuthInfo) (st : RepoState) (dc dk : Bytes),
      st.canQuery = true →
      (rcf.resolver.clientCertData ≠ "" →
        b64decode rcf.resolver.clientCertData.data = some dc) →
      (rcf.resolver.clientKeyData ≠ "" →
        b64decode rcf.resolver.clientKeyData.data = some dk) →
      ((if rcf.resolver.clientCertData ≠ "" then dc else ai.clientCertificateData) ≠ [] →
        (if rcf.resolver.clientKeyData ≠ "" then dk else ai.clientKeyData) ≠ [] →
        ∃ rec st', resolveX509 rcf (some ai) st = GoResult.ok (rec.id, st') ∧
          st' = { st with kubeIntegrations := st.kubeIntegrations ++ [rec] } ∧
          rec.clientCertificateData =
            (if rcf.resolver.clientCertData ≠ "" then dc else ai.clientCertificateData) ∧
          rec.clientKeyData =
            (if rcf.resolver.clientKeyData ≠ "" then dk else ai.clientKeyData)) ∧
      (((if rcf.resolver.clientCertData ≠ "" then dc else ai.clientCertificateData) = [] ∨
          (if rcf.resolver.clientKeyData ≠ "" then dk else ai.clientKeyData) = []) →
        resolveX509 rcf (some ai) st =
          GoResult.err "could not resolve kube integration (x509)")) := by
  constructor
  · intro rcf ai st hq
    refine ⟨?_, ?_, ?_⟩
    · intro hov
      by_cases hraw : ai.token = "" <;>
        [skip; skip] <;>
        · simp [resolveToken, createKubeIntegration, hq, hov, hraw,
            string_length_pos_iff, strBytes_eq_nil_iff]
          exact ⟨_, _, ⟨rfl, rfl⟩, rfl, rfl⟩
    · intro hov hraw
      simp [resolveToken, createKubeIntegration, hq, hov, hraw,
        string_length_pos_iff, strBytes_eq_nil_iff]
      exact ⟨_, _, ⟨rfl, rfl⟩, rfl, rfl⟩
    · intro hov hraw
      simp [resolveToken, hov, hraw, string_length_pos_iff]
  · intro rcf ai st dc dk hq hdc hdk
    by_cases hoc : rcf.resolver.clientCertData = "" <;>
      by_cases hok : rcf.resolver.clientKeyData = "" <;>
      by_cases h1 : ai.clientCertificateData = [] <;>
      by_cases h2 : ai.clientKeyData = [] <;>
      constructor <;>
      (intros
       simp_all [resolveX509, createKubeIntegration,
         List.length_pos, List.length_eq_zero]
       try first
         | exact ⟨_, _, ⟨rfl, rfl⟩, rfl, rfl, rfl⟩
         | exact ⟨_, _, ⟨rfl, rfl⟩, rfl, rfl⟩
         | exact ⟨_, _, ⟨rfl, rfl⟩, rfl⟩)

/-- C3 witness: instantiation of the amended precedence theorem at
concrete inputs — an override token beats a raw token, and a missing
certificate pair yields the mechanism-level error. -/
theorem c3_amended_precedence_witness :
    (∃ rec st',
      resolveToken { resolver := { tokenData := "abc123" } }
          (some { token := "rawtok" }) {} = GoResult.ok (rec.id, st') ∧
        st' = { kubeIntegrations := [] ++ [rec] } ∧
        rec.token = strBytes "abc123") ∧
      resolveX509 {} (some {}) {} =
        GoResult.err "could not resolve kube integration (x509)" := by
  constructor
  · exact (c3_amended_precedence.1 { resolver := { tokenData := "abc123" } }
      { token := "rawtok" } {} rfl).1 (by decide)
  · exact (c3_amended_precedence.2 {} {} {} [] [] rfl
      (by intro h; exact absurd rfl h) (by intro h; exact absurd rfl h)).2 (Or.inl rfl)

/-- C4 (amended): for a non-empty CA string matching the base64 pattern,
`ToCluster` succeeds and stores exactly the decoded bytes (the decode
always succeeds on a pattern match, so the decode-failure error path is
unreachable); for a CA string that is empty or does not match the
pattern, the stored certificate data is *empty* — the non-matching
input is discarded, not passed through unchanged. -/
theorem c4_amended_sniffer :
    ∀ ccf : CreateClusterForm,
      ccf.gcpIntegrationID ≠ 0 ∨ ccf.awsIntegrationID ≠ 0 →
      ((ccf.certificateAuthorityData ≠ "" ∧
          matchBase64 ccf.certificateAuthorityData = true) →
        ∃ bs, b64decode ccf.certificateAuthorityData.data = some bs ∧
          ∃ c, ToCluster ccf = GoResult.ok c ∧ c.certificateAuthorityData = bs) ∧
      (¬(ccf.certificateAuthorityData ≠ "" ∧
          matchBase64 ccf.certificateAuthorityData = true) →
        ∃ c, ToCluster ccf = GoResult.ok c ∧ c.certificateAuthorityData = []) := by
  intro ccf hmech
  constructor
  · rintro ⟨hne, hm⟩
    obtain ⟨bs, hbs⟩ :=
      Option.isSome_iff_exists.mp (b64decode_isSome_of_reGroups _ hm)
    refine ⟨bs, hbs, ?_⟩
    by_cases hgcp : ccf.gcpIntegrationID = 0
    · have haws : ccf.awsIntegrationID ≠ 0 := by
        rcases hmech with h | h
        · exact absurd hgcp h
        · exact h
      simp [ToCluster, hgcp, haws, hne, hm, hbs]
    · simp [ToCluster, hgcp, hne, hm, hbs]
  · intro hneg
    have hsplit : ccf.certificateAuthorityData = "" ∨
        matchBase64 ccf.certificateAuthorityData = false := by
      rcases not_and_or.mp hneg with h | h
      · exact Or.inl (not_not.mp h)
      · exact Or.inr (by simpa using h)
    by_cases hgcp : ccf.gcpIntegrationID = 0
    · have haws : ccf.awsIntegrationID ≠ 0 := by
        rcases hmech with h | h
        · exact absurd hgcp h
        · exact h
      rcases hsplit with h | h
      · simp [ToCluster, hgcp, haws, h]
      · by_cases hne : ccf.certificateAuthorityData = "" <;>
          simp [ToCluster, hgcp, haws, hne, h]
    · rcases hsplit with h | h
      · simp [ToCluster, hgcp, h]
      · by_cases hne : ccf.certificateAuthorityData = "" <;>
          simp [ToCluster, hgcp, hne, h]

/-- C4 witness: the amended sniffer theorem at the matching input
`"QUJD"` on a GCP-backed form. -/
theorem c4_amended_sniffer_witness :
    ∃ bs, b64decode "QUJD".data = some bs ∧
      ∃ c, ToCluster { gcpIntegrationID := 1, certificateAuthorityData := "QUJD" } =
          GoResult.ok c ∧ c.certificateAuthorityData = bs :=
  (c4_amended_sniffer { gcpIntegrationID := 1, certificateAuthorityData := "QUJD" }
    (Or.inl (by decide))).1 ⟨by decide, by decide⟩

set_option maxHeartbeats 1000000 in
/-- C5 (amended): for the Certificate mechanism, non-empty client
certificate and key override values are *always* base64-decoded — no
pattern sniffing is applied: a value that fails to decode makes
resolution fail with the decode error (instead of being passed through
raw), and on success the decoded bytes are what replaces the raw
value. -/
theorem c5_amended_overrides_always_decoded :
    ∀ (rcf : ResolveClusterForm) (ai : AuthInfo) (st : RepoState),
      (rcf.resolver.clientCertData ≠ "" →
        b64decode rcf.resolver.clientCertData.data = none →
        resolveX509 rcf (some ai) st = GoResult.err "illegal base64 data") ∧
      ((rcf.resolver.clientCertData = "" ∨
          (∃ dc, b64decode rcf.resolver.clientCertData.data = some dc)) →
        rcf.resolver.clientKeyData ≠ "" →
        b64decode rcf.resolver.clientKeyData.data = none →
        resolveX509 rcf (some ai) st = GoResult.err "illegal base64 data") ∧
      (∀ dc id st', rcf.resolver.clientCertData ≠ "" →
        b64decode rcf.resolver.clientCertData.data = some dc →
        resolveX509 rcf (some ai) st = GoResult.ok (id, st') →
        ∃ rec, st' = { st with kubeIntegrations := st.kubeIntegrations ++ [rec] } ∧
          rec.clientCertificateData = dc) ∧
      (∀ dk id st', rcf.resolver.clientKeyData ≠ "" →
        b64decode rcf.resolver.clientKeyData.data = some dk →
        resolveX509 rcf (some ai) st = GoResult.ok (id, st') →
        ∃ rec, st' = { st with kubeIntegrations := st.kubeIntegrations ++ [rec] } ∧
          rec.clientKeyData = dk) := by
  intro rcf ai st
  refine ⟨?_, ?_, ?_, ?_⟩
  · intro hne hnone
    simp [resolveX509, hne, hnone]
  · intro hcert hne hnone
    rcases hcert with hc | ⟨dc, hdc⟩
    · simp [resolveX509, hc, hne, hnone]
    · by_cases hoc : rcf.resolver.clientCertData = "" <;>
        simp [resolveX509, hoc, hdc, hne, hnone]
  · intro dc id st' hne hdc heq
    by_cases h3 : dc = []
    · rcases hdk0 : b64decode rcf.resolver.clientKeyData.data with _ | dk <;>
        by_cases hq : st.canQuery = true <;>
        by_cases hok : rcf.resolver.clientKeyData = "" <;>
        by_cases h1 : ai.clientCertificateData = [] <;>
        by_cases h2 : ai.clientKeyData = [] <;>
        simp_all [resolveX509, createKubeIntegration,
          List.length_pos, List.length_eq_zero]
    · rcases hdk0 : b64decode rcf.resolver.clientKeyData.data with _ | dk
      · by_cases hq : st.canQuery = true <;>
          by_cases hok : rcf.resolver.clientKeyData = "" <;>
          by_cases h1 : ai.clientCertificateData = [] <;>
          by_cases h2 : ai.clientKeyData = [] <;>
          simp_all [resolveX509, createKubeIntegration,
            List.length_pos, List.length_eq_zero] <;>
          first
            | exact ⟨_, heq.2.symm, rfl⟩
            | exact ⟨_, heq.symm, rfl⟩
            | exact ⟨_, rfl, rfl⟩
      · by_cases h4 : dk = [] <;>
          by_cases hq : st.canQuery = true <;>
          by_cases hok : rcf.resolver.clientKeyData = "" <;>
          by_cases h1 : ai.clientCertificateData = [] <;>
          by_cases h2 : ai.clientKeyData = [] <;>
          simp_all [resolveX509, createKubeIntegration,
            List.length_pos, List.length_eq_zero] <;>
          first
            | exact ⟨_, heq.2.symm, rfl⟩
            | exact ⟨_, heq.symm, rfl⟩
            | exact ⟨_, rfl, rfl⟩
  · intro dk id st' hne hdk heq
    by_cases h3 : dk = []
    · rcases hdc0 : b64decode rcf.resolver.clientCertData.data with _ | dc <;>
        by_cases hq : st.canQuery = true <;>
        by_cases hoc : rcf.resolver.clientCertData = "" <;>
        by_cases h1 : ai.clientCertificateData = [] <;>
        by_cases h2 : ai.clientKeyData = [] <;>
        simp_all [resolveX509, createKubeIntegration,
          List.length_pos, List.length_eq_zero]
    · rcases hdc0 : b64decode rcf.resolver.clientCertData.data with _ | dc
      · by_cases hq : st.canQuery = true <;>
          by_cases hoc : rcf.resolver.clientCertData = "" <;>
          by_cases h1 : ai.clientCertificateData = [] <;>
          by_cases h2 : ai.clientKeyData = [] <;>
          simp_all [resolveX509, createKubeIntegration,
            List.length_pos, List.length_eq_zero] <;>
          first
            | exact ⟨_, heq.2.symm, rfl⟩
            | exact ⟨_, heq.symm, rfl⟩
            | exact ⟨_, rfl, rfl⟩
      · by_cases h4 : dc = [] <;>
          by_cases hq : st.canQuery = true <;>
          by_cases hoc : rcf.resolver.clientCertData = "" <;>
          by_cases h1 : ai.clientCertificateData = [] <;>
          by_cases h2 : ai.clientKeyData = [] <;>
          simp_all [resolveX509, createKubeIntegration,
            List.length_pos, List.length_eq_zero] <;>
          first
            | exact ⟨_, heq.2.symm, rfl⟩
            | exact ⟨_, heq.symm, rfl⟩
            | exact ⟨_, rfl, rfl⟩

/-- C5 witness: the amended theorem at concrete inputs — the invalid
override `"!!!"` is a decode failure, and the valid override `"QUJD"`
persists its decoded bytes `[65, 66, 67]`. -/
theorem c5_amended_overrides_always_decoded_witness :
    resolveX509 { resolver := { clientKeyData := "!!!" } }
        (some { clientCertificateData := [1] }) {} =
      GoResult.err "illegal base64 data" ∧
    (∃ rec, ({ kubeIntegrations :=
          [{ id := 1, mechanism := kubeX509, clientCertificateData := [65, 66, 67],
             clientKeyData := [2] }] } : RepoState) =
        { ({} : RepoState) with
            kubeIntegrations := ({} : RepoState).kubeIntegrations ++ [rec] } ∧
      rec.clientCertificateData = [65, 66, 67]) := by
  constructor
  · exact (c5_amended_overrides_always_decoded
      { resolver := { clientKeyData := "!!!" } }
      { clientCertificateData := [1] } {}).2.1 (Or.inl rfl) (by decide) (by decide)
  · exact (c5_amended_overrides_always_decoded
      { resolver := { clientCertData := "QUJD" } }
      { clientKeyData := [2] } {}).2.2.1 [65, 66, 67] 1
      { kubeIntegrations :=
          [{ id := 1, mechanism := kubeX509, clientCertificateData := [65, 66, 67],
             clientKeyData := [2] }] }
      (by decide) (by decide) (by decide)

/-- C6 (amended): for CloudIAM-B (AWS) the resolver checks all three
required fields and fails — persisting nothing — when any is empty,
per the claim; but for PreExistingLocal the blob is persisted
*unconditionally*, copied verbatim from the candidate with no emptiness
check, so an empty blob still produces a persisted record (see the
counterexample). -/
theorem c6_amended_required_fields :
    (∀ (rcf : ResolveClusterForm) (ai : Option AuthInfo) (st : RepoState),
      st.canQuery = true →
      ((rcf.resolver.awsClusterID = "" ∨ rcf.resolver.awsAccessKeyID = "" ∨
          rcf.resolver.awsSecretAccessKey = "") →
        resolveAWS rcf ai st = GoResult.err "could not resolve aws integration") ∧
      (rcf.resolver.awsClusterID ≠ "" → rcf.resolver.awsAccessKeyID ≠ "" →
        rcf.resolver.awsSecretAccessKey ≠ "" →
        ∃ rec, resolveAWS rcf ai st =
            GoResult.ok (rec.id,
              { st with awsIntegrations := st.awsIntegrations ++ [rec] }) ∧
          rec.awsClusterID ≠ [] ∧ rec.awsAccessKeyID ≠ [] ∧
          rec.awsSecretAccessKey ≠ [])) ∧
    (∀ (rcf : ResolveClusterForm) (ai : Option AuthInfo) (st : RepoState),
      st.canQuery = true →
      ∃ rec, resolveLocal rcf ai st =
          GoResult.ok (rec.id,
            { st with kubeIntegrations := st.kubeIntegrations ++ [rec] }) ∧
        rec.kubeconfig = rcf.clusterCandidate.kubeconfig) := by
  constructor
  · intro rcf ai st hq
    constructor
    · intro hmiss
      by_cases hcl : rcf.resolver.awsClusterID = "" <;>
        by_cases hak : rcf.resolver.awsAccessKeyID = "" <;>
        by_cases hsk : rcf.resolver.awsSecretAccessKey = "" <;>
        simp_all [resolveAWS, strBytes_eq_nil_iff]
    · intro hcl hak hsk
      simp [resolveAWS, createAWSIntegration, hq, hcl, hak, hsk,
        strBytes_eq_nil_iff]
      exact ⟨_, ⟨rfl, rfl⟩, by simp [strBytes_eq_nil_iff, hcl],
        by simp [strBytes_eq_nil_iff, hak], by simp [strBytes_eq_nil_iff, hsk]⟩
  · intro rcf ai st hq
    simp [resolveLocal, createKubeIntegration, hq]
    exact ⟨_, ⟨rfl, rfl⟩, rfl⟩

/-- C6 witness: the amended theorem at concrete inputs — AWS overrides
missing the secret access key fail without persisting, and
PreExistingLocal persists a record carrying the candidate's blob. -/
theorem c6_amended_required_fields_witness :
    resolveAWS { resolver := { awsClusterID := "cid", awsAccessKeyID := "ak" } }
        none {} = GoResult.err "could not resolve aws integration" ∧
    (∃ rec, resolveLocal { clusterCandidate := { kubeconfig := [7] } } none {} =
        GoResult.ok (rec.id,
          { ({} : RepoState) with kubeIntegrations := [] ++ [rec] }) ∧
      rec.kubeconfig = ({ kubeconfig := [7] } : ClusterCandidate).kubeconfig) := by
  constructor
  · exact ((c6_amended_required_fields.1
      { resolver := { awsClusterID := "cid", awsAccessKeyID := "ak" } }
      none {} rfl).1 (Or.inr (Or.inr rfl)))
  · exact c6_amended_required_fields.2
      { clusterCandidate := { kubeconfig := [7] } } none {} rfl

/-- C9: for the OIDC mechanism a non-empty issuer-CA-data override
replaces the credential's certificate-authority data with the override
string's bytes verbatim — no base64 sniffing or decoding is applied
(`cluster.go` 342–348), deliberately unlike the Certificate mechanism's
override handling (which always decodes, cf. C5). -/
theorem c9_oidc_ca_override_verbatim :
    ∀ (rcf : ResolveClusterForm) (ai : AuthInfo) (ap : AuthProviderConfig)
      (st : RepoState),
      st.canQuery = true → ai.authProvider = some ap →
      rcf.resolver.oidcIssuerCAData ≠ "" →
      ∃ rec, resolveOIDC rcf (some ai) st =
          GoResult.ok (rec.id,
            { st with oidcIntegrations := st.oidcIntegrations ++ [rec] }) ∧
        rec.certificateAuthorityData = strBytes rcf.resolver.oidcIssuerCAData := by
  intro rcf ai ap st hq hap hov
  simp [resolveOIDC, createOIDCIntegration, hq, hap, hov]
  exact ⟨_, ⟨rfl, rfl⟩, rfl⟩

/-- C9 witness: the override `"QUJD"` — itself a valid base64 string —
is stored as its literal bytes `[81, 85, 74, 68]`, not decoded. -/
theorem c9_oidc_ca_override_verbatim_witness :
    ∃ rec, resolveOIDC { resolver := { oidcIssuerCAData := "QUJD" } }
        (some { authProvider := some {} }) {} =
        GoResult.ok (rec.id,
          { ({} : RepoState) with oidcIntegrations := [] ++ [rec] }) ∧
      rec.certificateAuthorityData = strBytes "QUJD" :=
  c9_oidc_ca_override_verbatim { resolver := { oidcIssuerCAData := "QUJD" } }
    { authProvider := some {} } {} {} rfl rfl (by decide)

/-- Inversion for `buildCluster`: a successful build is the slot-switch
applied to a base descriptor whose four credential-reference slots are
all zero (the base starts from a literal with zero slots and no later
step before the switch touches them). -/
theorem buildCluster_ok_shape :
    ∀ (rcf : ResolveClusterForm) (c : Cluster),
      buildCluster rcf = GoResult.ok c →
      ∃ base, base.kubeIntegrationID = 0 ∧ base.oidcIntegrationID = 0 ∧
        base.gcpIntegrationID = 0 ∧ base.awsIntegrationID = 0 ∧
        c = attachIntegrationID rcf.clusterCandidate.authMechanism
              rcf.integrationID base := by
  intro rcf c heq
  rcases hctx : mapGet rcf.rawConf.contexts rcf.rawConf.currentContext with _ | ctx
  · simp [buildCluster, hctx] at heq
  rcases hcl : mapGet rcf.rawConf.clusters ctx.cluster with _ | kcl
  · simp [buildCluster, hctx, hcl] at heq
  rcases hai : mapGet rcf.rawConf.authInfos ctx.authInfo with _ | kai
  · simp [buildCluster, hctx, hcl, hai] at heq
  by_cases hg : kai.impersonateGroups.length > 0 <;>
    by_cases hcad : kcl.certificateAuthorityData.length > 0 <;>
    by_cases hca : rcf.resolver.clusterCAData = "" <;>
    by_cases hh : rcf.resolver.clusterHostname = ""
  all_goals (
    first
      | (simp [buildCluster, hctx, hcl, hai, hg, hcad, hca, hh] at heq
         exact ⟨_, rfl, rfl, rfl, rfl, heq.symm⟩)
      | (rcases hdec : b64decode rcf.resolver.clusterCAData.data with _ | bs <;>
          rcases hurl :
            urlParse rcf.clusterCandidate.server with _ | uu <;>
          simp [buildCluster, applyHostnameOverride, hctx, hcl, hai, hg, hcad,
            hca, hh, hdec, hurl] at heq <;>
          exact ⟨_, rfl, rfl, rfl, rfl, heq.symm⟩))

/-- C7: after every successful build of a cluster descriptor for a
dispatched mechanism (one of the seven known tags) with a non-zero
resolved integration id, exactly one of the four credential-reference
slots on the descriptor (`KubeIntegrationID` — shared by the four
kube-family mechanisms — `OIDCIntegrationID`, `GCPIntegrationID`,
`AWSIntegrationID`) is non-zero, and it is the slot matching the
dispatched mechanism. -/
theorem c7_exactly_one_slot :
    ∀ (rcf : ResolveClusterForm) (c : Cluster),
      buildCluster rcf = GoResult.ok c →
      rcf.integrationID ≠ 0 →
      (rcf.clusterCandidate.authMechanism = mX509 ∨
        rcf.clusterCandidate.authMechanism = mBearer ∨
        rcf.clusterCandidate.authMechanism = mBasic ∨
        rcf.clusterCandidate.authMechanism = mLocal ∨
        rcf.clusterCandidate.authMechanism = mOIDC ∨
        rcf.clusterCandidate.authMechanism = mGCP ∨
        rcf.clusterCandidate.authMechanism = mAWS) →
      ((c.kubeIntegrationID ≠ 0 ∧ c.oidcIntegrationID = 0 ∧
          c.gcpIntegrationID = 0 ∧ c.awsIntegrationID = 0) ∨
        (c.oidcIntegrationID ≠ 0 ∧ c.kubeIntegrationID = 0 ∧
          c.gcpIntegrationID = 0 ∧ c.awsIntegrationID = 0) ∨
        (c.gcpIntegrationID ≠ 0 ∧ c.kubeIntegrationID = 0 ∧
          c.oidcIntegrationID = 0 ∧ c.awsIntegrationID = 0) ∨
        (c.awsIntegrationID ≠ 0 ∧ c.kubeIntegrationID = 0 ∧
          c.oidcIntegrationID = 0 ∧ c.gcpIntegrationID = 0)) ∧
      ((rcf.clusterCandidate.authMechanism = mX509 ∨
          rcf.clusterCandidate.authMechanism = mBearer ∨
          rcf.clusterCandidate.authMechanism = mBasic ∨
          rcf.clusterCandidate.authMechanism = mLocal) →
        c.kubeIntegrationID = rcf.integrationID) ∧
      (rcf.clusterCandidate.authMechanism = mOIDC →
        c.oidcIntegrationID = rcf.integrationID) ∧
      (rcf.clusterCandidate.authMechanism = mGCP →
        c.gcpIntegrationID = rcf.integrationID) ∧
      (rcf.clusterCandidate.authMechanism = mAWS →
        c.awsIntegrationID = rcf.integrationID) := by
  intro rcf c heq hid hmech
  obtain ⟨base, hk, ho, hg, ha, hc⟩ := buildCluster_ok_shape rcf c heq
  subst hc
  rcases hmech with h | h | h | h | h | h | h <;>
    rw [h] <;>
    simp [attachIntegrationID, mX509, mBearer, mBasic, mLocal, mOIDC, mGCP, mAWS,
      hk, ho, hg, ha, hid]

/-- C7 witness: a concrete OIDC-mechanism build with integration id 5 —
the build succeeds and only the OIDC slot is non-zero, carrying the id. -/
theorem c7_exactly_one_slot_witness :
    ∃ c, buildCluster
        { integrationID := 5
          clusterCandidate := { authMechanism := mOIDC }
          rawConf :=
            { currentContext := "c"
              contexts := [("c", { cluster := "cl", authInfo := "u" })]
              authInfos := [("u", {})]
              clusters := [("cl", {})] } } = GoResult.ok c ∧
      c.oidcIntegrationID = 5 ∧ c.kubeIntegrationID = 0 ∧
      c.gcpIntegrationID = 0 ∧ c.awsIntegrationID = 0 := by
  have h := c7_exactly_one_slot
    { integrationID := 5
      clusterCandidate := { authMechanism := mOIDC }
      rawConf :=
        { currentContext := "c"
          contexts := [("c", { cluster := "cl", authInfo := "u" })]
          authInfos := [("u", {})]
          clusters := [("cl", {})] } }
    { authMechanism := mOIDC, oidcIntegrationID := 5 }
    (by decide) (by decide)
    (Or.inr (Or.inr (Or.inr (Or.inr (Or.inl rfl)))))
  exact ⟨{ authMechanism := mOIDC, oidcIntegrationID := 5 }, by decide,
    h.2.2.1 rfl, by decide, by decide, by decide⟩

/-- `takeWhile`/`dropWhile` on a list that is an all-satisfying prefix
followed by a failing element. -/
theorem takeWhile_dropWhile_append_stop (p : Char → Bool) :
    ∀ (xs : List Char) (y : Char) (ys : List Char),
      (∀ c ∈ xs, p c = true) → p y = false →
      (xs ++ y :: ys).takeWhile p = xs ∧ (xs ++ y :: ys).dropWhile p = y :: ys := by
  intro xs
  induction xs with
  | nil =>
    intro y ys _ hy
    simp [List.takeWhile, List.dropWhile, hy]
  | cons x xs ih =>
    intro y ys hxs hy
    have hx : p x = true := hxs x (List.mem_cons_self x xs)
    have hxs' : ∀ c ∈ xs, p c = true := fun c hm => hxs c (List.mem_cons_of_mem x hm)
    obtain ⟨h1, h2⟩ := ih y ys hxs' hy
    simp [List.takeWhile, List.dropWhile, hx, h1, h2]

/-- `takeWhile`/`dropWhile` on an all-satisfying list. -/
theorem takeWhile_dropWhile_all (p : Char → Bool) :
    ∀ xs : List Char, (∀ c ∈ xs, p c = true) →
      xs.takeWhile p = xs ∧ xs.dropWhile p = [] := by
  intro xs
  induction xs with
  | nil => intro _; simp
  | cons x xs ih =>
    intro hxs
    have hx : p x = true := hxs x (List.mem_cons_self x xs)
    obtain ⟨h1, h2⟩ := ih (fun c hm => hxs c (List.mem_cons_of_mem x hm))
    simp [List.takeWhile, List.dropWhile, hx, h1, h2]

/-- Soundness of `parseScheme`: a successful split reconstructs the
input, and the scheme part contains neither `:` nor `/`. -/
theorem parseScheme_sound :
    ∀ (l sch rest : List Char), parseScheme l = some (sch, rest) →
      l = sch ++ ':' :: '/' :: '/' :: rest ∧ ∀ c ∈ sch, c ≠ ':' ∧ c ≠ '/' := by
  intro l
  induction l with
  | nil => intro sch rest h; simp [parseScheme] at h
  | cons x l ih =>
    intro sch rest h
    simp only [parseScheme] at h
    by_cases hx : x = ':'
    · rw [if_pos hx] at h
      by_cases ht : l.take 2 = ['/', '/']
      · rw [if_pos ht] at h
        simp only [Option.some.injEq, Prod.mk.injEq] at h
        obtain ⟨hsch, hrest⟩ := h
        subst hsch
        subst hrest
        constructor
        · have := (List.take_append_drop 2 l).symm
          rw [ht] at this
          simpa [hx] using this
        · intro c hc
          simp at hc
      · rw [if_neg ht] at h
        simp at h
    · rw [if_neg hx] at h
      by_cases hs : x = '/'
      · rw [if_pos hs] at h
        simp at h
      · rw [if_neg hs] at h
        rcases hps : parseScheme l with _ | p
        · rw [hps] at h; simp at h
        · rw [hps] at h
          simp only [Option.map_some', Option.some.injEq, Prod.mk.injEq] at h
          obtain ⟨hsch, hrest⟩ := h
          obtain ⟨hl, hmem⟩ := ih p.1 p.2 (by rw [hps])
          subst hsch
          subst hrest
          constructor
          · simpa using congrArg (x :: ·) hl
          · intro c hc
            rcases List.mem_cons.mp hc with hcx | hcm
            · subst hcx; exact ⟨hx, hs⟩
            · exact hmem c hcm

/-- Completeness of `parseScheme`: splitting a well-formed
`scheme ++ "://" ++ rest` recovers the parts. -/
theorem parseScheme_append :
    ∀ (sch rest : List Char), (∀ c ∈ sch, c ≠ ':' ∧ c ≠ '/') →
      parseScheme (sch ++ ':' :: '/' :: '/' :: rest) = some (sch, rest) := by
  intro sch
  induction sch with
  | nil => intro rest _; simp [parseScheme]
  | cons x sch ih =>
    intro rest hmem
    obtain ⟨hx, hs⟩ := hmem x (List.mem_cons_self x sch)
    have hrec := ih rest (fun c hm => hmem c (List.mem_cons_of_mem x hm))
    simp [parseScheme, hx, hs, hrec]

/-- Characters of a `takeWhile` result satisfy the predicate. -/
theorem mem_takeWhile_sat (p : Char → Bool) :
    ∀ (l : List Char) (c : Char), c ∈ l.takeWhile p → p c = true := by
  intro l
  induction l with
  | nil => intro c hc; simp [List.takeWhile] at hc
  | cons x l ih =>
    intro c hc
    by_cases hx : p x = true
    · rw [List.takeWhile_cons, if_pos hx] at hc
      rcases List.mem_cons.mp hc with h | h
      · subst h; exact hx
      · exact ih c h
    · rw [List.takeWhile_cons, if_neg hx] at hc
      simp at hc

/-- A `dropWhile` result is empty or starts with a failing element. -/
theorem dropWhile_shape (p : Char → Bool) :
    ∀ l : List Char, l.dropWhile p = [] ∨
      ∃ x t, l.dropWhile p = x :: t ∧ p x = false := by
  intro l
  induction l with
  | nil => exact Or.inl rfl
  | cons x l ih =>
    by_cases hx : p x = true
    · rw [List.dropWhile_cons, if_pos hx]
      exact ih
    · rw [List.dropWhile_cons, if_neg hx]
      exact Or.inr ⟨x, l, rfl, by simpa using hx⟩

/-- The empty string is the only string with empty character data. -/
theorem string_eq_empty_of_data (s : String) (h : s.data = []) : s = "" := by
  obtain ⟨l⟩ := s
  simpa [String.ext_iff] using h

/-- Unfolding equation for `urlParse`. -/
theorem urlParse_eq (s : String) :
    urlParse s =
      match parseScheme s.data with
      | none => none
      | some (sch, rest) =>
        if sch = [] then none
        else
          some { scheme := String.mk sch
                 host := String.mk (rest.takeWhile (fun c => c ≠ '/'))
                 path := String.mk (rest.dropWhile (fun c => c ≠ '/')) } := rfl

/-- Soundness of `urlParse`: the parts of a successfully parsed URL are
well-formed and reconstruct the input. -/
theorem urlParse_sound (s : String) (u : GoURL) (h : urlParse s = some u) :
    u.scheme.data ≠ [] ∧ (∀ c ∈ u.scheme.data, c ≠ ':' ∧ c ≠ '/') ∧
    (∀ c ∈ u.host.data, c ≠ '/') ∧
    (u.path.data = [] ∨ ∃ t, u.path.data = '/' :: t) ∧
    s.data = u.scheme.data ++ ':' :: '/' :: '/' :: u.host.data ++ u.path.data := by
  rcases hps : parseScheme s.data with _ | p
  · simp only [urlParse_eq, hps] at h
    exact absurd h (by simp)
  · obtain ⟨sch, rest⟩ := p
    simp only [urlParse_eq, hps] at h
    by_cases hsch : sch = []
    · rw [if_pos hsch] at h
      simp at h
    · rw [if_neg hsch] at h
      injection h with h
      subst h
      obtain ⟨hl, hmem⟩ := parseScheme_sound s.data sch rest hps
      refine ⟨hsch, hmem, ?_, ?_, ?_⟩
      · intro c hc
        have := mem_takeWhile_sat (fun c => c ≠ '/') rest c hc
        simpa using this
      · rcases dropWhile_shape (fun c => c ≠ '/') rest with hsh | ⟨x, t, hxt, hx⟩
        · exact Or.inl hsh
        · refine Or.inr ⟨t, ?_⟩
          have hxs : x = '/' := by simpa using hx
          rw [hxt, hxs]
      · rw [hl]
        simp [List.takeWhile_append_dropWhile]

/-- Completeness of `urlParse`: parsing a well-formed rendered URL
recovers its parts. -/
theorem urlParse_mk (sch host path : List Char) (h1 : sch ≠ [])
    (h2 : ∀ c ∈ sch, c ≠ ':' ∧ c ≠ '/') (h3 : ∀ c ∈ host, c ≠ '/')
    (h4 : path = [] ∨ ∃ t, path = '/' :: t) :
    urlParse (String.mk (sch ++ ':' :: '/' :: '/' :: (host ++ path))) =
      some { scheme := String.mk sch, host := String.mk host,
             path := String.mk path } := by
  have hps : parseScheme
        (String.mk (sch ++ ':' :: '/' :: '/' :: (host ++ path))).data =
      some (sch, host ++ path) := parseScheme_append sch (host ++ path) h2
  simp only [urlParse_eq, hps]
  rw [if_neg h1]
  have hhost : ∀ c ∈ host, (fun c => decide (c ≠ '/')) c = true := by
    intro c hc
    simpa using h3 c hc
  rcases h4 with hp | ⟨t, hp⟩
  · subst hp
    obtain ⟨ht, hd⟩ := takeWhile_dropWhile_all (fun c => c ≠ '/') host hhost
    rw [List.append_nil, ht, hd]
  · subst hp
    obtain ⟨ht, hd⟩ := takeWhile_dropWhile_append_stop (fun c => c ≠ '/')
      host '/' t hhost (by simp)
    rw [ht, hd]

/-- A decimal digit is not a colon. -/
theorem digit_ne_colon {c : Char} (h : isDigitCh c = true) : c ≠ ':' := by
  intro he; subst he; exact absurd h (by decide)

/-- A decimal digit is not a slash. -/
theorem digit_ne_slash {c : Char} (h : isDigitCh c = true) : c ≠ '/' := by
  intro he; subst he; exact absurd h (by decide)

/-- Every character of a `urlPort` result is a digit. -/
theorem urlPort_digits (u : GoURL) :
    ∀ c ∈ (urlPort u).data, isDigitCh c = true := by
  intro c hc
  rw [urlPort] at hc
  by_cases hcol : u.host.data.contains ':' = true
  · rw [if_pos hcol] at hc
    by_cases hall : ((u.host.data.reverse.takeWhile (fun c => c ≠ ':')).reverse).all
        isDigitCh = true
    · rw [if_pos hall] at hc
      exact List.all_eq_true.mp hall c hc
    · rw [if_neg hall] at hc
      simp at hc
  · rw [if_neg hcol] at hc
    simp at hc

/-- A non-empty `urlPort` result has non-empty character data. -/
theorem urlPort_data_ne (u : GoURL) (h : urlPort u ≠ "") :
    (urlPort u).data ≠ [] := by
  intro hd
  exact h (string_eq_empty_of_data _ hd)

/-- `Port()` and `Hostname()` of a host of the form `name:digits`. -/
theorem urlPort_mk_port (sch path : String) (n p : List Char)
    (hn : ∀ c ∈ n, c ≠ ':') (hp : p ≠ []) (hpd : ∀ c ∈ p, isDigitCh c = true) :
    urlPort { scheme := sch, host := String.mk (n ++ ':' :: p), path := path } =
        String.mk p ∧
      urlHostname { scheme := sch, host := String.mk (n ++ ':' :: p),
                    path := path } = String.mk n := by
  have hrev : (n ++ ':' :: p).reverse = p.reverse ++ ':' :: n.reverse := by
    simp
  have hpne : ∀ c ∈ p.reverse, (fun c => decide (c ≠ ':')) c = true := by
    intro c hc
    simpa using digit_ne_colon (hpd c (List.mem_reverse.mp hc))
  obtain ⟨ht, hd⟩ := takeWhile_dropWhile_append_stop (fun c => c ≠ ':')
    p.reverse ':' n.reverse hpne (by simp)
  have hcol : (n ++ ':' :: p).contains ':' = true := by
    simp [List.elem_iff]
  constructor
  · rw [urlPort]
    rw [if_pos (by simpa using hcol), hrev, ht, List.reverse_reverse]
    rw [if_pos (List.all_eq_true.mpr hpd)]
  · rw [urlHostname]
    rw [if_pos (by simpa using hcol), hrev, hd]
    simp

/-- `Port()` and `Hostname()` of a colon-free host. -/
theorem urlPort_mk_noport (sch path : String) (n : List Char)
    (hn : ∀ c ∈ n, c ≠ ':') :
    urlPort { scheme := sch, host := String.mk n, path := path } = "" ∧
      urlHostname { scheme := sch, host := String.mk n, path := path } =
        String.mk n := by
  have hcol : ¬ n.contains ':' = true := fun hc => hn ':' (List.elem_iff.mp hc) rfl
  constructor
  · rw [urlPort, if_neg hcol]
  · rw [urlHostname, if_neg hcol]

/-- C8: for every server URL that parses and every non-empty hostname
override (a hostname: no `:` or `/` characters), the builder's
hostname-override step succeeds and replaces only the host component of
the URL: the re-parsed result keeps the scheme and path, its hostname is
the override, and its port is exactly the original port (a URL with a
port keeps it; a URL without one gains none); a URL-reparse failure is
the fatal error. -/
theorem c8_hostname_override_preserves_port :
    (∀ (server n : String) (u : GoURL),
      urlParse server = some u → n ≠ "" →
      (∀ c ∈ n.data, c ≠ ':' ∧ c ≠ '/') →
      ∃ s' u', applyHostnameOverride n server = GoResult.ok s' ∧
        urlParse s' = some u' ∧ u'.scheme = u.scheme ∧ u'.path = u.path ∧
        urlHostname u' = n ∧ urlPort u' = urlPort u) ∧
    (∀ server n : String, urlParse server = none →
      applyHostnameOverride n server =
        GoResult.err "could not parse server url") := by
  constructor
  · intro server n u hp hne hchars
    obtain ⟨hsne, hsmem, hhost, hpath, hdata⟩ := urlParse_sound server u hp
    have hncol : ∀ c ∈ n.data, c ≠ ':' := fun c hc => (hchars c hc).1
    have hnslash : ∀ c ∈ n.data, c ≠ '/' := fun c hc => (hchars c hc).2
    by_cases hport : urlPort u = ""
    · refine ⟨urlString { u with host := n }, { u with host := n }, ?_, ?_, rfl,
        rfl, ?_, ?_⟩
      · simp only [applyHostnameOverride, hp]
        rw [if_pos hport]
      · have hs' : urlString { u with host := n } =
            String.mk (u.scheme.data ++ ':' :: '/' :: '/' ::
              (n.data ++ u.path.data)) := by
          simp [urlString, String.ext_iff]
        rw [hs']
        exact urlParse_mk u.scheme.data n.data u.path.data hsne hsmem hnslash hpath
      · exact (urlPort_mk_noport u.scheme u.path n.data hncol).2
      · rw [hport]
        exact (urlPort_mk_noport u.scheme u.path n.data hncol).1
    · have hpd : ∀ c ∈ (urlPort u).data, isDigitCh c = true := urlPort_digits u
      have hpne : (urlPort u).data ≠ [] := urlPort_data_ne u hport
      have hhostchars : ∀ c ∈ n.data ++ ':' :: (urlPort u).data, c ≠ '/' := by
        intro c hc
        rcases List.mem_append.mp hc with hcn | hcp
        · exact hnslash c hcn
        · rcases List.mem_cons.mp hcp with hcc | hcd
          · subst hcc; decide
          · exact digit_ne_slash (hpd c hcd)
      refine ⟨urlString { u with host := n ++ ":" ++ urlPort u },
        { scheme := u.scheme, host := String.mk (n.data ++ ':' :: (urlPort u).data),
          path := u.path }, ?_, ?_, rfl, rfl, ?_, ?_⟩
      · simp only [applyHostnameOverride, hp]
        rw [if_neg hport]
      · have hs' : urlString { u with host := n ++ ":" ++ urlPort u } =
            String.mk (u.scheme.data ++ ':' :: '/' :: '/' ::
              ((n.data ++ ':' :: (urlPort u).data) ++ u.path.data)) := by
          simp [urlString, String.ext_iff]
        rw [hs']
        exact urlParse_mk u.scheme.data (n.data ++ ':' :: (urlPort u).data)
          u.path.data hsne hsmem hhostchars hpath
      · exact (urlPort_mk_port u.scheme u.path n.data (urlPort u).data
          hncol hpne hpd).2
      · exact (urlPort_mk_port u.scheme u.path n.data (urlPort u).data
          hncol hpne hpd).1
  · intro server n h
    simp only [applyHostnameOverride, h]

/-- C8 witness: the spec's two examples — `https://old.example.com:6443`
keeps port 6443 under override `new.example.com`, and the portless
`https://old.example.com` gains no port. -/
theorem c8_hostname_override_preserves_port_witness :
    (∃ s' u',
      applyHostnameOverride "new.example.com" "https://old.example.com:6443" =
          GoResult.ok s' ∧
        urlParse s' = some u' ∧
        u'.scheme = "https" ∧
        u'.path = "" ∧
        urlHostname u' = "new.example.com" ∧
        urlPort u' =
          urlPort { scheme := "https", host := "old.example.com:6443", path := "" }) ∧
    (∃ s' u',
      applyHostnameOverride "new.example.com" "https://old.example.com" =
          GoResult.ok s' ∧
        urlParse s' = some u' ∧
        u'.scheme = "https" ∧
        u'.path = "" ∧
        urlHostname u' = "new.example.com" ∧
        urlPort u' =
          urlPort { scheme := "https", host := "old.example.com", path := "" }) := by
  constructor
  · exact c8_hostname_override_preserves_port.1
      "https://old.example.com:6443" "new.example.com"
      { scheme := "https", host := "old.example.com:6443", path := "" }
      (by decide) (by decide) (by decide)
  · exact c8_hostname_override_preserves_port.1
      "https://old.example.com" "new.example.com"
      { scheme := "https", host := "old.example.com", path := "" }
      (by decide) (by decide) (by decide)

/-- C10: for the BasicAuth mechanism the resolved credential record and
the success/failure outcome are determined solely by the candidate's raw
username and password: `resolveBasic` (`cluster.go` 252–282) never reads
the resolver overrides, so any two override values yield identical
results. -/
theorem c10_basic_independent_of_overrides (rcf : ResolveClusterForm)
    (r1 r2 : ClusterResolverAll) (authInfo : Option AuthInfo) (st : RepoState) :
    resolveBasic { rcf with resolver := r1 } authInfo st =
      resolveBasic { rcf with resolver := r2 } authInfo st := rfl

end Porter
